import Mathlib

/-
  Verification development for the clinical-trial Schedule-of-Events (SOE)
  processing pipeline.  The definitions below are a shallow embedding of the
  pipeline source (route action module): the SoeRow / ScheduleDates data
  model, the schedule calculator, the visit aggregator, the two CSV
  renderers, the page-selector parsing policy, and the orchestrating action
  with its per-stage error capture.  External model/network calls are
  modelled as oracle parameters; calendar dates are modelled as proleptic
  Gregorian epoch-day numbers (the UTC calendar day underlying a JS Date).
-/

set_option maxRecDepth 4000

-- ---------------------------------------------------------------------------
-- Generic helpers
-- ---------------------------------------------------------------------------

/-- Characters removed by the JS string trim at either end (ASCII whitespace;
the Unicode space classes are not exercised by this development). -/
def isJsSpace (c : Char) : Bool :=
  c = ' ' || c = '\t' || c = '\n' || c = '\r' ||
  c = Char.ofNat 11 || c = Char.ofNat 12

/-- Embedding of the JS String.prototype.trim used on table cells. -/
def jsTrim (s : String) : String :=
  String.mk (((s.data.dropWhile isJsSpace).reverse.dropWhile isJsSpace).reverse)

/-- Embedding of the JS Array.prototype.join with separator sep. -/
def joinSep (sep : String) : List String → String
  | [] => ""
  | [s] => s
  | s :: rest => s ++ sep ++ joinSep sep rest

/-- Stable insertion used to model the stable Array.prototype.sort. -/
def insertBy (le : α → α → Bool) (x : α) : List α → List α
  | [] => [x]
  | y :: ys => if le y x then y :: insertBy le x ys else x :: y :: ys

/-- Stable sort modelling the JS Array.prototype.sort with a comparator. -/
def sortBy (le : α → α → Bool) : List α → List α
  | [] => []
  | x :: xs => insertBy le x (sortBy le xs)

/-- Lexicographic comparison of character lists (code-unit order). -/
def lexLe : List Char → List Char → Bool
  | [], _ => true
  | _ :: _, [] => false
  | a :: as, b :: bs => if a = b then lexLe as bs else decide (a < b)

/-- String comparison used to model localeCompare on fixed-width ISO date
strings: ascending code-unit lexicographic order. -/
def strLe (a b : String) : Bool := lexLe a.data b.data

/-- JS truthiness of an optional string: undefined and the empty string are
falsy; models patterns such as soeFileId or fileId. -/
def jsOrStr (a b : Option String) : Option String :=
  match a with
  | some s => if s.isEmpty then b else some s
  | none => b

/-- JS truthiness test for an optional string value. -/
def jsTruthy (a : Option String) : Bool :=
  match a with
  | some s => !s.isEmpty
  | none => false

/-- JS nullish coalescing on optionals: models detectError = detectError ?? err. -/
def jsNullish (a b : Option String) : Option String :=
  match a with
  | some s => some s
  | none => b

-- ---------------------------------------------------------------------------
-- Data model: SoeRow (12 fixed string fields) and its canonical key order
-- ---------------------------------------------------------------------------

/-- Keys of the fixed, closed 12-field SoeRow schema. -/
inductive SoeKey where
  | row_label
  | protocol_section
  | screening
  | treatment_period_cycle_1_day_1
  | treatment_period_cycle_2_day_1
  | treatment_period_cycle_1_day_8
  | treatment_period_cycle_2_day_8
  | treatment_period_cycle_1_day_15
  | treatment_period_cycle_2_day_15
  | c3_and_beyond
  | eot
  | follow_up_every_12_weeks_up_to_3_years_from_eot
deriving DecidableEq, Repr

/-- One normalized Schedule-of-Events row: exactly 12 named string fields. -/
structure SoeRow where
  row_label : String
  protocol_section : String
  screening : String
  treatment_period_cycle_1_day_1 : String
  treatment_period_cycle_2_day_1 : String
  treatment_period_cycle_1_day_8 : String
  treatment_period_cycle_2_day_8 : String
  treatment_period_cycle_1_day_15 : String
  treatment_period_cycle_2_day_15 : String
  c3_and_beyond : String
  eot : String
  follow_up_every_12_weeks_up_to_3_years_from_eot : String
deriving DecidableEq, Repr

/-- Field access on a SoeRow by key (the r[h] indexing of the source). -/
def rowGet (r : SoeRow) : SoeKey → String
  | .row_label => r.row_label
  | .protocol_section => r.protocol_section
  | .screening => r.screening
  | .treatment_period_cycle_1_day_1 => r.treatment_period_cycle_1_day_1
  | .treatment_period_cycle_2_day_1 => r.treatment_period_cycle_2_day_1
  | .treatment_period_cycle_1_day_8 => r.treatment_period_cycle_1_day_8
  | .treatment_period_cycle_2_day_8 => r.treatment_period_cycle_2_day_8
  | .treatment_period_cycle_1_day_15 => r.treatment_period_cycle_1_day_15
  | .treatment_period_cycle_2_day_15 => r.treatment_period_cycle_2_day_15
  | .c3_and_beyond => r.c3_and_beyond
  | .eot => r.eot
  | .follow_up_every_12_weeks_up_to_3_years_from_eot =>
      r.follow_up_every_12_weeks_up_to_3_years_from_eot

/-- Rendered name of each key, exactly as in the source header list. -/
def soeKeyName : SoeKey → String
  | .row_label => "row_label"
  | .protocol_section => "protocol_section"
  | .screening => "screening"
  | .treatment_period_cycle_1_day_1 => "treatment_period_cycle_1_day_1"
  | .treatment_period_cycle_2_day_1 => "treatment_period_cycle_2_day_1"
  | .treatment_period_cycle_1_day_8 => "treatment_period_cycle_1_day_8"
  | .treatment_period_cycle_2_day_8 => "treatment_period_cycle_2_day_8"
  | .treatment_period_cycle_1_day_15 => "treatment_period_cycle_1_day_15"
  | .treatment_period_cycle_2_day_15 => "treatment_period_cycle_2_day_15"
  | .c3_and_beyond => "c3_and_beyond"
  | .eot => "eot"
  | .follow_up_every_12_weeks_up_to_3_years_from_eot =>
      "follow_up_every_12_weeks_up_to_3_years_from_eot"

/-- Canonical SoeRow key order (the SOE_HEADERS constant of the source). -/
def SOE_HEADERS : List SoeKey :=
  [ .row_label
  , .protocol_section
  , .screening
  , .treatment_period_cycle_1_day_1
  , .treatment_period_cycle_2_day_1
  , .treatment_period_cycle_1_day_8
  , .treatment_period_cycle_2_day_8
  , .treatment_period_cycle_1_day_15
  , .treatment_period_cycle_2_day_15
  , .c3_and_beyond
  , .eot
  , .follow_up_every_12_weeks_up_to_3_years_from_eot ]

-- ---------------------------------------------------------------------------
-- Calendar arithmetic: epoch days and ISO rendering (JS Date semantics)
-- ---------------------------------------------------------------------------

/-- Epoch-day number of a proleptic Gregorian calendar date (the civil-days
conversion underlying a JS Date set to UTC midnight). -/
def daysFromCivil (y m d : Int) : Int :=
  let y2 := if m ≤ 2 then y - 1 else y
  let era := Int.fdiv y2 400
  let yoe := y2 - era * 400
  let mp := Int.emod (m + 9) 12
  let doy := Int.fdiv (153 * mp + 2) 5 + d - 1
  let doe := yoe * 365 + Int.fdiv yoe 4 - Int.fdiv yoe 100 + doy
  era * 146097 + doe - 719468

/-- Inverse conversion: calendar date (year, month, day) of an epoch day. -/
def civilFromDays (z0 : Int) : Int × Int × Int :=
  let z := z0 + 719468
  let era := Int.fdiv z 146097
  let doe := z - era * 146097
  let yoe := Int.fdiv (doe - Int.fdiv doe 1460 + Int.fdiv doe 36524 - Int.fdiv doe 146096) 365
  let y := yoe + era * 400
  let doy := doe - (365 * yoe + Int.fdiv yoe 4 - Int.fdiv yoe 100)
  let mp := Int.fdiv (5 * doy + 2) 153
  let d := doy - Int.fdiv (153 * mp + 2) 5 + 1
  let m := mp + (if mp < 10 then 3 else -9)
  (if m ≤ 2 then y + 1 else y, m, d)

/-- Two-digit zero padding of a month or day number. -/
def pad2 (n : Int) : String :=
  if n < 10 then "0" ++ toString n else toString n

/-- Four-digit zero padding of a year number (the toISOString year field). -/
def pad4 (n : Int) : String :=
  if n < 10 then "000" ++ toString n
  else if n < 100 then "00" ++ toString n
  else if n < 1000 then "0" ++ toString n
  else toString n

/-- Embedding of addDays of the source: calendar-day addition on a JS Date
is addition on the epoch-day number. -/
def addDays (base : Int) (days : Int) : Int := base + days

/-- Embedding of formatIsoDate of the source: the YYYY-MM-DD slice of
toISOString of a date at UTC midnight. -/
def formatIsoDate (z : Int) : String :=
  let c := civilFromDays z
  pad4 c.1 ++ "-" ++ pad2 c.2.1 ++ "-" ++ pad2 c.2.2

-- ---------------------------------------------------------------------------
-- Schedule Calculator (computeScheduleDates of the source)
-- ---------------------------------------------------------------------------

/-- Record of the 9 computed milestone dates plus the placeholder
protocol_section field, exactly as in the source (field order preserved). -/
structure ScheduleDates where
  protocol_section : String
  screening : String
  treatment_period_cycle_1_day_1 : String
  treatment_period_cycle_2_day_1 : String
  treatment_period_cycle_1_day_8 : String
  treatment_period_cycle_2_day_8 : String
  treatment_period_cycle_1_day_15 : String
  treatment_period_cycle_2_day_15 : String
  c3_and_beyond : String
  eot : String
deriving DecidableEq, Repr

/-- Milestone day values bound by let in computeScheduleDates, lifted to
named definitions: screening = today + 1 day. -/
def screeningDay (today : Int) : Int := addDays today 1

/-- C1D1 = screening + 7 days. -/
def c1d1Day (today : Int) : Int := addDays (screeningDay today) 7

/-- C1D8 = C1D1 + 7 days. -/
def c1d8Day (today : Int) : Int := addDays (c1d1Day today) 7

/-- C1D15 = C1D1 + 14 days. -/
def c1d15Day (today : Int) : Int := addDays (c1d1Day today) 14

/-- C2D1 = C1D15 + 30 days. -/
def c2d1Day (today : Int) : Int := addDays (c1d15Day today) 30

/-- C2D8 = C2D1 + 7 days. -/
def c2d8Day (today : Int) : Int := addDays (c2d1Day today) 7

/-- C2D15 = C2D1 + 14 days. -/
def c2d15Day (today : Int) : Int := addDays (c2d1Day today) 14

/-- C3 and beyond = C2D15 + 30 days. -/
def c3BeyondDay (today : Int) : Int := addDays (c2d15Day today) 30

/-- EOT = C3 and beyond + 30 days. -/
def eotDay (today : Int) : Int := addDays (c3BeyondDay today) 30

/-- Embedding of computeScheduleDates: derives all nine milestone dates from
the anchor day and renders each as YYYY-MM-DD. -/
def computeScheduleDates (today : Int) : ScheduleDates :=
  { protocol_section := ""
  , screening := formatIsoDate (screeningDay today)
  , treatment_period_cycle_1_day_1 := formatIsoDate (c1d1Day today)
  , treatment_period_cycle_2_day_1 := formatIsoDate (c2d1Day today)
  , treatment_period_cycle_1_day_8 := formatIsoDate (c1d8Day today)
  , treatment_period_cycle_2_day_8 := formatIsoDate (c2d8Day today)
  , treatment_period_cycle_1_day_15 := formatIsoDate (c1d15Day today)
  , treatment_period_cycle_2_day_15 := formatIsoDate (c2d15Day today)
  , c3_and_beyond := formatIsoDate (c3BeyondDay today)
  , eot := formatIsoDate (eotDay today) }

/-- Schedule field selected by a SoeRow key (the schedule[k] indexing used by
the visit loop and the display renderer; keys without a schedule counterpart
read the empty string). -/
def schedGet (s : ScheduleDates) : SoeKey → String
  | .row_label => ""
  | .protocol_section => s.protocol_section
  | .screening => s.screening
  | .treatment_period_cycle_1_day_1 => s.treatment_period_cycle_1_day_1
  | .treatment_period_cycle_2_day_1 => s.treatment_period_cycle_2_day_1
  | .treatment_period_cycle_1_day_8 => s.treatment_period_cycle_1_day_8
  | .treatment_period_cycle_2_day_8 => s.treatment_period_cycle_2_day_8
  | .treatment_period_cycle_1_day_15 => s.treatment_period_cycle_1_day_15
  | .treatment_period_cycle_2_day_15 => s.treatment_period_cycle_2_day_15
  | .c3_and_beyond => s.c3_and_beyond
  | .eot => s.eot
  | .follow_up_every_12_weeks_up_to_3_years_from_eot => ""

-- ---------------------------------------------------------------------------
-- CSV renderers (rowsToCsv and buildDisplayCsv of the source)
-- ---------------------------------------------------------------------------

/-- Character-level body of the shared field escaping: every double quote is
doubled (the replace of all double quotes in the source esc helper). -/
def escBody : List Char → List Char
  | [] => []
  | c :: cs => if c = '"' then '"' :: '"' :: escBody cs else c :: escBody cs

/-- Shared esc helper of both renderers: wrap the field in double quotes,
doubling any embedded double quote. -/
def escField (s : String) : String :=
  String.mk ('"' :: escBody s.data ++ ['"'])

/-- Header line of the full renderer: the 12 key names joined by commas. -/
def csvHeaderLine : String :=
  joinSep "," (SOE_HEADERS.map soeKeyName)

/-- One data line of the full renderer: all 12 fields escaped and joined. -/
def csvRowLine (r : SoeRow) : String :=
  joinSep "," (SOE_HEADERS.map (fun h => escField (rowGet r h)))

/-- Embedding of rowsToCsv: header line plus one line per row, joined by
newlines. -/
def rowsToCsv (rows : List SoeRow) : String :=
  joinSep "\n" (csvHeaderLine :: rows.map csvRowLine)

/-- Display column selection of buildDisplayCsv: cycle-1 milestones grouped
together, then cycle-2 milestones, long-horizon follow-up dropped. -/
def displayHeaders : List SoeKey :=
  [ .row_label
  , .protocol_section
  , .screening
  , .treatment_period_cycle_1_day_1
  , .treatment_period_cycle_1_day_8
  , .treatment_period_cycle_1_day_15
  , .treatment_period_cycle_2_day_1
  , .treatment_period_cycle_2_day_8
  , .treatment_period_cycle_2_day_15
  , .c3_and_beyond
  , .eot ]

/-- Display header line: human-friendly label replacing the raw first key
name, then the remaining display key names. -/
def displayHeaderLine : String :=
  joinSep "," ("Trial Task" :: (displayHeaders.drop 1).map soeKeyName)

/-- Cells of the synthetic dates row, in the order written in the source. -/
def datesRowCells (schedule : ScheduleDates) : List String :=
  [ "dates"
  , schedule.protocol_section
  , schedule.screening
  , schedule.treatment_period_cycle_1_day_1
  , schedule.treatment_period_cycle_1_day_8
  , schedule.treatment_period_cycle_1_day_15
  , schedule.treatment_period_cycle_2_day_1
  , schedule.treatment_period_cycle_2_day_8
  , schedule.treatment_period_cycle_2_day_15
  , schedule.c3_and_beyond
  , schedule.eot ]

/-- Rendered synthetic dates row of the display CSV. -/
def datesRowLine (schedule : ScheduleDates) : String :=
  joinSep "," ((datesRowCells schedule).map escField)

/-- One data line of the display renderer. -/
def displayRowLine (r : SoeRow) : String :=
  joinSep "," (displayHeaders.map (fun h => escField (rowGet r h)))

/-- Embedding of buildDisplayCsv: display header, synthetic dates row, then
one display line per row. -/
def buildDisplayCsv (rows : List SoeRow) (schedule : ScheduleDates) : String :=
  joinSep "\n" (displayHeaderLine :: datesRowLine schedule :: rows.map displayRowLine)

-- ---------------------------------------------------------------------------
-- Visit Aggregator (the visits loop of the action)
-- ---------------------------------------------------------------------------

/-- One derived clinical visit: milestone date, label, and the labels of the
rows active at that milestone. -/
structure Visit where
  date : String
  label : String
  events : List String
deriving DecidableEq, Repr

/-- The columnPlan literal of the source: the 9 milestone columns paired with
their display labels, in declared order. -/
def columnPlan : List (SoeKey × String) :=
  [ (.screening, "Screening")
  , (.treatment_period_cycle_1_day_1, "C1D1")
  , (.treatment_period_cycle_1_day_8, "C1D8")
  , (.treatment_period_cycle_1_day_15, "C1D15")
  , (.treatment_period_cycle_2_day_1, "C2D1")
  , (.treatment_period_cycle_2_day_8, "C2D8")
  , (.treatment_period_cycle_2_day_15, "C2D15")
  , (.c3_and_beyond, "C3+ and beyond")
  , (.eot, "EOT") ]

/-- Rows active in a milestone column: cell non-blank after trimming. -/
def eventsForColumn (rows : List SoeRow) (k : SoeKey) : List String :=
  (rows.filter (fun r => jsTrim (rowGet r k) ≠ "")).map (fun r => r.row_label)

/-- One loop iteration of the visits computation: skip the column when its
schedule date string is falsy, otherwise push one Visit (regardless of how
many rows qualified). -/
def visitForColumn (rows : List SoeRow) (schedule : ScheduleDates)
    (col : SoeKey × String) : Option Visit :=
  let dateStr := schedGet schedule col.1
  if dateStr = "" then none
  else some { date := dateStr, label := col.2, events := eventsForColumn rows col.1 }

/-- Embedding of the visits computation of the action: one pass over
columnPlan, then a stable sort by ascending date string. -/
def visitsFor (rows : List SoeRow) (schedule : ScheduleDates) : List Visit :=
  sortBy (fun a b => strLe a.date b.date)
    (columnPlan.filterMap (visitForColumn rows schedule))

-- ---------------------------------------------------------------------------
-- Page Selector parsing policy (detectSoePages of the source)
-- ---------------------------------------------------------------------------

/-- Opening curly brace character. -/
def lbrace : Char := Char.ofNat 123

/-- Closing curly brace character. -/
def rbrace : Char := Char.ofNat 125

/-- Embedding of the greedy brace-span regex match of the source: the span
from the first opening brace that has a closing brace after it, to the last
closing brace of the text. -/
def firstBraceSpan (s : List Char) : Option (List Char) :=
  match s.reverse.findIdx? (fun c => c = rbrace) with
  | none => none
  | some rj =>
    let j := s.length - 1 - rj
    match s.findIdx? (fun c => c = lbrace) with
    | none => none
    | some i => if i < j then some ((s.take (j + 1)).drop i) else none

/-- String-level wrapper of the brace-span extraction. -/
def firstBraceSpanStr (raw : String) : Option String :=
  (firstBraceSpan raw.data).map String.mk

/-- A JSON-parse oracle abstracting the platform JSON.parse as used by the
page selector: none when the parse throws, some none when the parse succeeds
but pdf_indices is absent or not an array, some (some l) when pdf_indices is
the array l. -/
def JsonParseFn : Type := String → Option (Option (List Int))

/-- Embedding of the detectSoePages result handling: guard on a missing text
output, direct parse attempt, brace-span fallback attempt only when the
direct parse throws, error when the resulting index list is empty.  An
uncaught fallback parse exception surfaces as an error as well. -/
def detectParse (jp : JsonParseFn) (raw : String) : Except String (List Int) :=
  if raw.isEmpty then Except.error "Error: Missing text output from Responses API."
  else
    match jp raw with
    | some r =>
      let l := r.getD []
      if l.isEmpty then Except.error "Error: No indices parsed from model output"
      else Except.ok l
    | none =>
      match firstBraceSpanStr raw with
      | none => Except.error "Error: No indices parsed from model output"
      | some sub =>
        match jp sub with
        | some r =>
          let l := r.getD []
          if l.isEmpty then Except.error "Error: No indices parsed from model output"
          else Except.ok l
        | none => Except.error "SyntaxError: Unexpected token in JSON"

/-- Modelled from the spec: the non-empty index list obtainable by the
two-attempt policy — direct JSON parse of the full text first, and, only
when that parse fails, a parse of the first brace span; none when neither
attempt yields a non-empty pdf_indices list (a missing text output yields
nothing obtainable). -/
def pageSelectorObtained (jp : JsonParseFn) (raw : String) : Option (List Int) :=
  if raw.isEmpty then none
  else
    match jp raw with
    | some r =>
      let l := r.getD []
      if l.isEmpty then none else some l
    | none =>
      match firstBraceSpanStr raw with
      | none => none
      | some sub =>
        match jp sub with
        | some r =>
          let l := r.getD []
          if l.isEmpty then none else some l
        | none => none

-- ---------------------------------------------------------------------------
-- Pipeline Orchestrator (the route action of the source)
-- ---------------------------------------------------------------------------

/-- The six caller flags parsed from the request. -/
structure RunFlags where
  includeSoePdf : Bool
  runUpload : Bool
  runDetect : Bool
  runReduce : Bool
  runTsv : Bool
  runJson : Bool
deriving DecidableEq, Repr

/-- Outcomes of the external calls the action performs, keyed by the input
each call receives; an error value is the stringified thrown message. -/
structure Oracles where
  apiKey : Option String
  upload : Except String String
  detect : String → Except String (String × List Int)
  buildSoe : List Int → Except String Unit
  base64 : List Int → Except String String
  uploadSoe : List Int → Except String String
  extractTsv : String → Except String String
  convert : String → Except String (List SoeRow)
  today : Int

/-- The JSON payload assembled by the action (undefined fields are none). -/
structure ActionResponse where
  status : Nat
  visits : List Visit
  fileId : Option String
  uploadError : Option String
  pdfIndices : Option (List Int)
  detectRaw : Option String
  detectError : Option String
  tsv : Option String
  tableData : Option (List SoeRow)
  csv : Option String
  csv_display : Option String
  soeFileId : Option String
  soePdfBase64 : Option String
  soeFileName : Option String
deriving DecidableEq, Repr

/-- Response with every optional field absent and an empty visits array. -/
def blankResponse : ActionResponse :=
  { status := 200, visits := [], fileId := none, uploadError := none
  , pdfIndices := none, detectRaw := none, detectError := none, tsv := none
  , tableData := none, csv := none, csv_display := none, soeFileId := none
  , soePdfBase64 := none, soeFileName := none }

/-- The anyRun gate of the action: true when any of the five stage flags is
set. -/
def anyRun (f : RunFlags) : Bool :=
  f.runUpload || f.runDetect || f.runReduce || f.runTsv || f.runJson

/-- Detection stage: runs when a truthy fileId exists and runDetect is set;
returns (pdfIndices, detectRaw, own error). -/
def detectStage (f : RunFlags) (o : Oracles) (fileId : Option String) :
    Option (List Int) × Option String × Option String :=
  match fileId with
  | some fid =>
    if !fid.isEmpty && f.runDetect then
      match o.detect fid with
      | .ok d => (some d.2, some d.1, none)
      | .error e => (none, none, some e)
    else (none, none, none)
  | none => (none, none, none)

/-- Reduction stage: runs when a truthy fileId, the runReduce flag, and a
non-empty index list all hold; builds the SOE-only PDF, optionally base64
encodes it (flag includeSoePdf), then uploads it.  Returns (soeFileId,
soePdfBase64, soeFileName, own error); assignments made before a throw
survive it, as in the source. -/
def reduceStage (f : RunFlags) (o : Oracles) (fileId : Option String)
    (pdfIndices : Option (List Int)) :
    Option String × Option String × Option String × Option String :=
  match fileId, pdfIndices with
  | some fid, some idxs =>
    if !fid.isEmpty && f.runReduce && decide (0 < idxs.length) then
      match o.buildSoe idxs with
      | .error e => (none, none, none, some e)
      | .ok _ =>
        if f.includeSoePdf then
          match o.base64 idxs with
          | .error e => (none, none, none, some e)
          | .ok b64 =>
            match o.uploadSoe idxs with
            | .error e => (none, some b64, some "soe_only.pdf", some e)
            | .ok sid => (some sid, some b64, some "soe_only.pdf", none)
        else
          match o.uploadSoe idxs with
          | .error e => (none, none, none, some e)
          | .ok sid => (some sid, none, none, none)
    else (none, none, none, none)
  | _, _ => (none, none, none, none)

/-- Extraction stage: runs when runTsv is set and a truthy target file id
exists (reduced file preferred over the original); returns (tsv, own
error). -/
def tsvStage (f : RunFlags) (o : Oracles) (soeFileId fileId : Option String) :
    Option String × Option String :=
  if f.runTsv then
    match jsOrStr soeFileId fileId with
    | some tid =>
      if !tid.isEmpty then
        match o.extractTsv tid with
        | .ok t => (some t, none)
        | .error e => (none, some e)
      else (none, none)
    | none => (none, none)
  else (none, none)

/-- Normalization stage: runs when runJson is set and a truthy tsv exists;
on success computes the two CSV renderings, the schedule, and the visits.
Returns (tableData, csv, csv_display, visits, own error). -/
def jsonStage (f : RunFlags) (o : Oracles) (tsv : Option String) :
    Option (List SoeRow) × Option String × Option String × List Visit × Option String :=
  match tsv with
  | some t =>
    if f.runJson && !t.isEmpty then
      match o.convert t with
      | .error e => (none, none, none, [], some e)
      | .ok rows =>
        let schedule := computeScheduleDates o.today
        (some rows, some (rowsToCsv rows), some (buildDisplayCsv rows schedule),
         visitsFor rows schedule, none)
    else (none, none, none, [], none)
  | none => (none, none, none, [], none)

/-- Embedding of the route action: precondition gates (file present, any
stage flag set, credential configured), then the linear stage sequence with
per-stage error capture into the shared detectError field via the nullish
assignment detectError = detectError ?? err.  Always returns a 200
success-shaped payload. -/
def action (hasFile : Bool) (f : RunFlags) (o : Oracles) : ActionResponse :=
  if hasFile && anyRun f then
    match o.apiKey with
    | none => { blankResponse with uploadError := some "Missing OPENAI_API_KEY" }
    | some _ =>
      let idUp : Option String × Option String :=
        match o.upload with
        | .ok fid => (some fid, none)
        | .error e => (none, some e)
      let fileId := idUp.1
      let uploadError := idUp.2
      let d := detectStage f o fileId
      let detectError0 := d.2.2
      let r := reduceStage f o fileId d.1
      let detectError1 := jsNullish detectError0 r.2.2.2
      let t := tsvStage f o r.1 fileId
      let detectError2 := jsNullish detectError1 t.2
      let j := jsonStage f o t.1
      let detectError3 := jsNullish detectError2 j.2.2.2.2
      { status := 200, visits := j.2.2.2.1, fileId := fileId
      , uploadError := uploadError, pdfIndices := d.1
      , detectRaw := d.2.1, detectError := detectError3, tsv := t.1
      , tableData := j.1, csv := j.2.1, csv_display := j.2.2.1
      , soeFileId := r.1, soePdfBase64 := r.2.1, soeFileName := r.2.2.1 }
  else if !hasFile then
    { blankResponse with uploadError := some "No file provided" }
  else blankResponse

/-- Diagnostics recorded by the four optional stages, in execution order,
for a given run of the action. -/
def stageErrorList (hasFile : Bool) (f : RunFlags) (o : Oracles) : List String :=
  if hasFile && anyRun f then
    match o.apiKey with
    | none => []
    | some _ =>
      let fileId : Option String :=
        match o.upload with
        | .ok fid => some fid
        | .error _ => none
      let d := detectStage f o fileId
      let r := reduceStage f o fileId d.1
      let t := tsvStage f o r.1 fileId
      let j := jsonStage f o t.1
      [d.2.2, r.2.2.2, t.2, j.2.2.2.2].filterMap id
  else []

-- ---------------------------------------------------------------------------
-- CSV reading (spec side): split on commas respecting the quote escaping
-- ---------------------------------------------------------------------------

/-- Characters that terminate an unquoted CSV field. -/
def notSepChar (c : Char) : Bool := !(c = ',' || c = '\n')

/-- Read the body of a quoted field after its opening quote: a doubled quote
is one literal quote, a single quote closes the field. -/
def readQuoted : List Char → Option (List Char × List Char)
  | [] => none
  | c :: rest =>
    if c = '"' then
      match rest with
      | c2 :: rest2 =>
        if c2 = '"' then (readQuoted rest2).map (fun fr => ('"' :: fr.1, fr.2))
        else some ([], rest)
      | [] => some ([], [])
    else (readQuoted rest).map (fun fr => (c :: fr.1, fr.2))

/-- Read one CSV field: quoted when it starts with a quote, otherwise the
run of characters up to the next separator. -/
def readField : List Char → Option (List Char × List Char)
  | [] => some ([], [])
  | c :: rest =>
    if c = '"' then readQuoted rest
    else some ((c :: rest).takeWhile notSepChar, (c :: rest).dropWhile notSepChar)

/-- Read the comma-separated fields of one record; the second component is
some remainder when a newline ended the record and none at end of input. -/
def readFields : Nat → List Char → Option (List (List Char) × Option (List Char))
  | 0, _ => none
  | fuel + 1, s =>
    match readField s with
    | none => none
    | some fr =>
      match fr.2 with
      | ',' :: r => (readFields fuel r).map (fun p => (fr.1 :: p.1, p.2))
      | '\n' :: r => some ([fr.1], some r)
      | [] => some ([fr.1], none)
      | _ => none

/-- Read the newline-separated records of a CSV text. -/
def readRecords : Nat → List Char → Option (List (List (List Char)))
  | 0, _ => none
  | fuel + 1, s =>
    match readFields (fuel + 1) s with
    | none => none
    | some (fs, none) => some [fs]
    | some (fs, some r) => (readRecords fuel r).map (fun rs => fs :: rs)

/-- Modelled from the spec: splitting a CSV text on commas and newlines
while respecting the shared quote-escaping rule, yielding the field values
of every record. -/
def parseCsv (s : String) : Option (List (List String)) :=
  (readRecords (s.data.length + 1) s.data).map
    (fun rs => rs.map (fun fs => fs.map String.mk))

/-- Comma-joined rendering of a record whose cells are all quoted-escaped;
character-level image of one rendered CSV data line. -/
def quotedCells : List (List Char) → List Char
  | [] => []
  | [v] => '"' :: (escBody v ++ ['"'])
  | v :: vs => '"' :: (escBody v ++ '"' :: ',' :: quotedCells vs)

/-- Comma-joined rendering of a record with bare (unquoted) cells;
character-level image of the rendered header line. -/
def bareCells : List (List Char) → List Char
  | [] => []
  | [v] => v
  | v :: vs => v ++ ',' :: bareCells vs

/-- Newline-joined rendering of a list of all-quoted records. -/
def quotedRecords : List (List (List Char)) → List Char
  | [] => []
  | [rec] => quotedCells rec
  | rec :: recs => quotedCells rec ++ '\n' :: quotedRecords recs

/-- Character lists of the 12 field values of a row in canonical order. -/
def recCells (r : SoeRow) : List (List Char) :=
  SOE_HEADERS.map (fun h => (rowGet r h).data)

/-- Remainder after a record separator: none at end of input. -/
def tailOpt : List Char → Option (List Char)
  | [] => none
  | _ :: r => some r

/-- Character lists of the 12 header names. -/
def headerCellsChars : List (List Char) :=
  (SOE_HEADERS.map soeKeyName).map String.data

/-- Character-level tail of the full CSV after the header line. -/
def recordsTail (rows : List SoeRow) : List Char :=
  match rows with
  | [] => []
  | _ :: _ => '\n' :: quotedRecords (rows.map recCells)

-- ---------------------------------------------------------------------------
-- Concrete instances used by counterexamples and witnesses
-- ---------------------------------------------------------------------------

/-- Row whose twelve fields are all blank. -/
def blankRow : SoeRow :=
  { row_label := "", protocol_section := "", screening := ""
  , treatment_period_cycle_1_day_1 := "", treatment_period_cycle_2_day_1 := ""
  , treatment_period_cycle_1_day_8 := "", treatment_period_cycle_2_day_8 := ""
  , treatment_period_cycle_1_day_15 := "", treatment_period_cycle_2_day_15 := ""
  , c3_and_beyond := "", eot := ""
  , follow_up_every_12_weeks_up_to_3_years_from_eot := "" }

/-- Oracle set for concrete runs: upload succeeds, detection fails, the
SOE-only build succeeds, extraction fails, conversion returns no rows. -/
def exOracleC3 : Oracles :=
  { apiKey := some "k"
  , upload := Except.ok "file-1"
  , detect := fun _ => Except.error "Error: detect boom"
  , buildSoe := fun _ => Except.ok ()
  , base64 := fun _ => Except.ok "b64"
  , uploadSoe := fun _ => Except.ok "soe-1"
  , extractTsv := fun _ => Except.error "Error: TSV extraction failed."
  , convert := fun _ => Except.ok []
  , today := 20089 }

/-- Flags enabling detection and extraction only. -/
def exFlagsC3 : RunFlags :=
  { includeSoePdf := false, runUpload := false, runDetect := true
  , runReduce := false, runTsv := true, runJson := false }

/-- Flags enabling extraction only. -/
def wFlagsC3 : RunFlags :=
  { includeSoePdf := false, runUpload := false, runDetect := false
  , runReduce := false, runTsv := true, runJson := false }

/-- Response with the preview fields blanked: the projection compared across
the two runs of the non-interference claim. -/
def eraseSoePdfFields (r : ActionResponse) : ActionResponse :=
  { r with soePdfBase64 := none, soeFileName := none }

/-- Base flags for the witness of the non-interference claim. -/
def wFlagsC8 : RunFlags :=
  { includeSoePdf := false, runUpload := true, runDetect := true
  , runReduce := true, runTsv := true, runJson := true }

/-- Oracle set whose calls all succeed, for the witness of the
non-interference claim. -/
def wOracleC8 : Oracles :=
  { apiKey := some "k"
  , upload := Except.ok "file-1"
  , detect := fun _ => Except.ok ("raw", [1, 3])
  , buildSoe := fun _ => Except.ok ()
  , base64 := fun _ => Except.ok "b64"
  , uploadSoe := fun _ => Except.ok "soe-1"
  , extractTsv := fun _ => Except.ok "a\tb"
  , convert := fun _ => Except.ok [blankRow]
  , today := 20089 }

-- ---------------------------------------------------------------------------
-- Round-trip lemmas for the full CSV renderer
-- ---------------------------------------------------------------------------

theorem takeWhile_append_all (p : α → Bool) (v rest : List α)
    (h : ∀ c ∈ v, p c) :
    (v ++ rest).takeWhile p = v ++ rest.takeWhile p := by
  induction v with
  | nil => simp
  | cons c cs ih =>
    simp only [List.cons_append, List.takeWhile_cons]
    rw [h c (by simp), ih (fun x hx => h x (by simp [hx]))]
    simp

theorem dropWhile_append_all (p : α → Bool) (v rest : List α)
    (h : ∀ c ∈ v, p c) :
    (v ++ rest).dropWhile p = rest.dropWhile p := by
  induction v with
  | nil => simp
  | cons c cs ih =>
    simp only [List.cons_append, List.dropWhile_cons]
    rw [h c (by simp), ih (fun x hx => h x (by simp [hx]))]
    simp

theorem readQuoted_cons_ne (c : Char) (rest : List Char) (hc : ¬ c = '"') :
    readQuoted (c :: rest) = (readQuoted rest).map (fun fr => (c :: fr.1, fr.2)) := by
  unfold readQuoted
  rw [if_neg hc, ← readQuoted.eq_def]

theorem readQuoted_cons_esc (rest : List Char) :
    readQuoted ('"' :: '"' :: rest) = (readQuoted rest).map (fun fr => ('"' :: fr.1, fr.2)) := by
  unfold readQuoted
  dsimp only
  rw [if_pos rfl, if_pos rfl, ← readQuoted.eq_def]

theorem readQuoted_close (rest : List Char) (h : rest.head? ≠ some '"') :
    readQuoted ('"' :: rest) = some ([], rest) := by
  cases rest with
  | nil => rfl
  | cons c2 r =>
    have hc : ¬ (c2 = '"') := fun hh => h (by simp [hh])
    unfold readQuoted
    dsimp only
    rw [if_pos rfl, if_neg hc]

theorem readQuoted_escBody (v : List Char) :
    ∀ rest, rest.head? ≠ some '"' →
    readQuoted (escBody v ++ '"' :: rest) = some (v, rest) := by
  induction v with
  | nil =>
    intro rest h
    simpa [escBody] using readQuoted_close rest h
  | cons c cs ih =>
    intro rest h
    by_cases hc : c = '"'
    · subst hc
      have : escBody ('"' :: cs) ++ '"' :: rest = '"' :: '"' :: (escBody cs ++ '"' :: rest) := by
        simp [escBody]
      rw [this, readQuoted_cons_esc, ih rest h]
      rfl
    · have : escBody (c :: cs) ++ '"' :: rest = c :: (escBody cs ++ '"' :: rest) := by
        simp [escBody, hc]
      rw [this, readQuoted_cons_ne c _ hc, ih rest h]
      rfl

theorem readField_quoted (v rest : List Char) (h : rest.head? ≠ some '"') :
    readField ('"' :: (escBody v ++ '"' :: rest)) = some (v, rest) := by
  simp [readField, readQuoted_escBody v rest h]

theorem readField_bare (v rest : List Char) (hv : v ≠ [])
    (hq : v.head? ≠ some '"') (hall : ∀ c ∈ v, notSepChar c)
    (hrest : rest.head? = some ',' ∨ rest.head? = some '\n' ∨ rest = []) :
    readField (v ++ rest) = some (v, rest) := by
  have ht : rest.takeWhile notSepChar = [] := by
    rcases hrest with h1 | h1 | h1
    · cases rest with
      | nil => simp at h1
      | cons c r =>
        simp at h1
        simp [List.takeWhile_cons, h1, notSepChar]
    · cases rest with
      | nil => simp at h1
      | cons c r =>
        simp at h1
        simp [List.takeWhile_cons, h1, notSepChar]
    · simp [h1]
  have hd : rest.dropWhile notSepChar = rest := by
    rcases hrest with h1 | h1 | h1
    · cases rest with
      | nil => simp at h1
      | cons c r =>
        simp at h1
        simp [List.dropWhile_cons, h1, notSepChar]
    · cases rest with
      | nil => simp at h1
      | cons c r =>
        simp at h1
        simp [List.dropWhile_cons, h1, notSepChar]
    · simp [h1]
  cases v with
  | nil => contradiction
  | cons c cs =>
    have hc : ¬ (c = '"') := fun hh => hq (by simp [hh])
    have hcons : (c :: cs) ++ rest = c :: (cs ++ rest) := rfl
    simp only [hcons, readField, if_neg hc]
    rw [show c :: (cs ++ rest) = (c :: cs) ++ rest from rfl]
    rw [takeWhile_append_all _ _ _ hall, dropWhile_append_all _ _ _ hall, ht, hd]
    simp

theorem readFields_quoted :
    ∀ (vs : List (List Char)) (fuel : Nat) (rest : List Char),
    vs ≠ [] → vs.length ≤ fuel →
    (rest = [] ∨ ∃ r, rest = '\n' :: r) →
    readFields fuel (quotedCells vs ++ rest) = some (vs, tailOpt rest) := by
  intro vs
  induction vs with
  | nil => intro fuel rest h; exact absurd rfl h
  | cons v vs ih =>
    intro fuel rest _ hfuel hrest
    have hlen : vs.length + 1 ≤ fuel := by simpa using hfuel
    obtain ⟨m, rfl⟩ : ∃ m, fuel = m + 1 := ⟨fuel - 1, by omega⟩
    cases vs with
    | nil =>
      have hhead : rest.head? ≠ some '"' := by
        rcases hrest with rfl | ⟨r, rfl⟩ <;> simp
      have hshape : quotedCells [v] ++ rest = '"' :: (escBody v ++ '"' :: rest) := by
        simp [quotedCells]
      rw [hshape]
      simp only [readFields, readField_quoted v rest hhead]
      rcases hrest with rfl | ⟨r, rfl⟩ <;> simp [tailOpt]
    | cons v2 vs2 =>
      have hshape : quotedCells (v :: v2 :: vs2) ++ rest =
          '"' :: (escBody v ++ '"' :: (',' :: (quotedCells (v2 :: vs2) ++ rest))) := by
        simp [quotedCells]
      rw [hshape]
      simp only [readFields, readField_quoted v (',' :: (quotedCells (v2 :: vs2) ++ rest)) (by simp)]
      have hrec := ih m rest (by simp) (by simp only [List.length_cons] at hfuel ⊢; omega) hrest
      simp [hrec]

theorem readFields_bare :
    ∀ (vs : List (List Char)) (fuel : Nat) (rest : List Char),
    vs ≠ [] → vs.length ≤ fuel →
    (∀ v ∈ vs, v ≠ [] ∧ v.head? ≠ some '"' ∧ ∀ c ∈ v, notSepChar c) →
    (rest = [] ∨ ∃ r, rest = '\n' :: r) →
    readFields fuel (bareCells vs ++ rest) = some (vs, tailOpt rest) := by
  intro vs
  induction vs with
  | nil => intro fuel rest h; exact absurd rfl h
  | cons v vs ih =>
    intro fuel rest _ hfuel hok hrest
    have hlen : vs.length + 1 ≤ fuel := by simpa using hfuel
    obtain ⟨m, rfl⟩ : ∃ m, fuel = m + 1 := ⟨fuel - 1, by omega⟩
    obtain ⟨hv1, hv2, hv3⟩ := hok v (by simp)
    cases vs with
    | nil =>
      have hshape : bareCells [v] ++ rest = v ++ rest := by simp [bareCells]
      rw [hshape]
      have hrest2 : rest.head? = some ',' ∨ rest.head? = some '\n' ∨ rest = [] := by
        rcases hrest with rfl | ⟨r, rfl⟩
        · right; right; rfl
        · right; left; rfl
      simp only [readFields, readField_bare v rest hv1 hv2 hv3 hrest2]
      rcases hrest with rfl | ⟨r, rfl⟩ <;> simp [tailOpt]
    | cons v2 vs2 =>
      have hshape : bareCells (v :: v2 :: vs2) ++ rest =
          v ++ (',' :: (bareCells (v2 :: vs2) ++ rest)) := by
        simp [bareCells]
      rw [hshape]
      simp only [readFields,
        readField_bare v (',' :: (bareCells (v2 :: vs2) ++ rest)) hv1 hv2 hv3 (by simp)]
      have hrec := ih m rest (by simp) (by simp only [List.length_cons] at hfuel ⊢; omega)
        (fun x hx => hok x (by simp [hx])) hrest
      simp [hrec]

theorem readRecords_quoted :
    ∀ (recs : List (List (List Char))) (fuel : Nat),
    recs ≠ [] → (∀ rec ∈ recs, rec ≠ [] ∧ rec.length ≤ 12) →
    12 + recs.length ≤ fuel →
    readRecords fuel (quotedRecords recs) = some recs := by
  intro recs
  induction recs with
  | nil => intro fuel h; exact absurd rfl h
  | cons rec recs ih =>
    intro fuel _ hok hfuel
    have hlen : 12 + (recs.length + 1) ≤ fuel := by simpa using hfuel
    obtain ⟨m, rfl⟩ : ∃ m, fuel = m + 1 := ⟨fuel - 1, by omega⟩
    obtain ⟨hr1, hr2⟩ := hok rec (by simp)
    cases recs with
    | nil =>
      have hshape : quotedRecords [rec] = quotedCells rec ++ [] := by
        simp [quotedRecords]
      rw [hshape]
      simp only [readRecords,
        readFields_quoted rec (m + 1) [] hr1 (by omega) (Or.inl rfl)]
      simp [tailOpt]
    | cons rec2 recs2 =>
      have hshape : quotedRecords (rec :: rec2 :: recs2) =
          quotedCells rec ++ ('\n' :: quotedRecords (rec2 :: recs2)) := rfl
      rw [hshape]
      simp only [readRecords,
        readFields_quoted rec (m + 1) ('\n' :: quotedRecords (rec2 :: recs2)) hr1 (by omega)
          (Or.inr ⟨_, rfl⟩)]
      have hrec := ih m (by simp) (fun x hx => hok x (by simp [hx]))
        (by simp only [List.length_cons] at hfuel ⊢; omega)
      simp [tailOpt, hrec]

theorem mk_data (s : String) : String.mk s.data = s := rfl

theorem comma_data : (",").data = [','] := rfl

theorem newline_data : ("\n").data = ['\n'] := rfl

theorem escField_data (s : String) :
    (escField s).data = '"' :: (escBody s.data ++ ['"']) := rfl

theorem csvHeaderLine_data : csvHeaderLine.data = bareCells headerCellsChars := by decide

theorem csvRowLine_data (r : SoeRow) :
    (csvRowLine r).data = quotedCells (recCells r) := by
  simp [csvRowLine, SOE_HEADERS, recCells, joinSep, quotedCells, escField_data,
    String.data_append, comma_data]

theorem joinLines_data :
    ∀ (rows : List SoeRow), rows ≠ [] →
    (joinSep "\n" (rows.map csvRowLine)).data = quotedRecords (rows.map recCells) := by
  intro rows
  induction rows with
  | nil => intro h; exact absurd rfl h
  | cons r rest ih =>
    intro _
    cases rest with
    | nil => simp [joinSep, quotedRecords, csvRowLine_data]
    | cons r2 rest2 =>
      have hj : joinSep "\n" ((r :: r2 :: rest2).map csvRowLine) =
          csvRowLine r ++ "\n" ++ joinSep "\n" ((r2 :: rest2).map csvRowLine) := by
        simp [joinSep]
      rw [hj]
      have hq : quotedRecords ((r :: r2 :: rest2).map recCells) =
          quotedCells (recCells r) ++ '\n' :: quotedRecords ((r2 :: rest2).map recCells) := rfl
      rw [hq]
      simp only [String.data_append, newline_data, csvRowLine_data]
      simp only [List.append_assoc, List.singleton_append]
      rw [ih (by simp)]

theorem rowsToCsv_data (rows : List SoeRow) :
    (rowsToCsv rows).data = bareCells headerCellsChars ++ recordsTail rows := by
  cases rows with
  | nil => simp [rowsToCsv, joinSep, recordsTail, csvHeaderLine_data]
  | cons r rest =>
    have hj : rowsToCsv (r :: rest) =
        csvHeaderLine ++ "\n" ++ joinSep "\n" ((r :: rest).map csvRowLine) := by
      simp [rowsToCsv, joinSep]
    rw [hj]
    simp only [String.data_append, newline_data, csvHeaderLine_data, recordsTail]
    rw [joinLines_data (r :: rest) (by simp)]
    simp

theorem quotedCells_len (vs : List (List Char)) (h : vs ≠ []) :
    2 ≤ (quotedCells vs).length := by
  cases vs with
  | nil => exact absurd rfl h
  | cons v vs =>
    cases vs with
    | nil => simp [quotedCells]
    | cons v2 vs2 => simp [quotedCells]; omega

theorem quotedRecords_len :
    ∀ (recs : List (List (List Char))), (∀ rec ∈ recs, rec ≠ []) →
    recs.length ≤ (quotedRecords recs).length := by
  intro recs
  induction recs with
  | nil => intro _; simp [quotedRecords]
  | cons rec recs ih =>
    intro hok
    cases recs with
    | nil =>
      have := quotedCells_len rec (hok rec (by simp))
      simp [quotedRecords]; omega
    | cons rec2 recs2 =>
      have h1 := quotedCells_len rec (hok rec (by simp))
      have h2 := ih (fun x hx => hok x (by simp [hx]))
      have hq : quotedRecords (rec :: rec2 :: recs2) =
          quotedCells rec ++ '\n' :: quotedRecords (rec2 :: recs2) := rfl
      rw [hq]
      simp only [List.length_append, List.length_cons] at h2 ⊢
      omega

theorem headerBare_len : 12 ≤ (bareCells headerCellsChars).length := by decide

theorem headerCells_ok :
    ∀ v ∈ headerCellsChars, v ≠ [] ∧ v.head? ≠ some '"' ∧ ∀ c ∈ v, notSepChar c := by
  decide

theorem headerCells_count : headerCellsChars.length = 12 := by decide

theorem recCells_len (r : SoeRow) : (recCells r).length = 12 := by
  simp [recCells, SOE_HEADERS]

theorem recCells_ne (r : SoeRow) : recCells r ≠ [] := by
  intro h
  have := recCells_len r
  rw [h] at this
  simp at this

theorem readRecords_csv (rows : List SoeRow) (fuel : Nat)
    (hf : 13 + rows.length ≤ fuel) :
    readRecords fuel (bareCells headerCellsChars ++ recordsTail rows) =
      some (headerCellsChars :: rows.map recCells) := by
  obtain ⟨m, rfl⟩ : ∃ m, fuel = m + 1 := ⟨fuel - 1, by omega⟩
  have h12 : headerCellsChars.length ≤ m + 1 := by rw [headerCells_count]; omega
  cases rows with
  | nil =>
    simp only [recordsTail]
    simp only [readRecords,
      readFields_bare headerCellsChars (m + 1) [] (by decide) h12 headerCells_ok (Or.inl rfl)]
    simp [tailOpt]
  | cons r rest =>
    simp only [recordsTail]
    simp only [readRecords,
      readFields_bare headerCellsChars (m + 1)
        ('\n' :: quotedRecords ((r :: rest).map recCells)) (by decide) h12 headerCells_ok
        (Or.inr ⟨_, rfl⟩)]
    have hrec := readRecords_quoted ((r :: rest).map recCells) m (by simp)
      (by
        intro rec hrc
        simp only [List.mem_map] at hrc
        obtain ⟨x, _, rfl⟩ := hrc
        exact ⟨recCells_ne x, le_of_eq (recCells_len x)⟩)
      (by simp only [List.length_map, List.length_cons] at hf ⊢; omega)
    simp only [tailOpt]
    simp only [List.map_cons] at hrec
    simp [hrec]

theorem parseCsv_rowsToCsv (rows : List SoeRow) :
    parseCsv (rowsToCsv rows) =
      some ((SOE_HEADERS.map soeKeyName) ::
        rows.map (fun r => SOE_HEADERS.map (rowGet r))) := by
  unfold parseCsv
  have h2 : rows.length ≤ (recordsTail rows).length := by
    cases rows with
    | nil => simp [recordsTail]
    | cons r rest =>
      have := quotedRecords_len ((r :: rest).map recCells)
        (by
          intro rec hrc
          simp only [List.mem_map] at hrc
          obtain ⟨x, _, rfl⟩ := hrc
          exact recCells_ne x)
      simp only [recordsTail, List.length_map, List.length_cons] at this ⊢
      omega
  have hlen : 13 + rows.length ≤ (rowsToCsv rows).data.length + 1 := by
    rw [rowsToCsv_data]
    have h1 := headerBare_len
    simp only [List.length_append]
    omega
  rw [rowsToCsv_data] at hlen ⊢
  rw [readRecords_csv rows _ hlen]
  simp [headerCellsChars, recCells, List.map_map, Function.comp, mk_data]

-- ---------------------------------------------------------------------------
-- Sorting and visit-aggregation lemmas
-- ---------------------------------------------------------------------------

theorem insertBy_perm (le : α → α → Bool) (x : α) (l : List α) :
    (insertBy le x l).Perm (x :: l) := by
  induction l with
  | nil => simp [insertBy]
  | cons y ys ih =>
    simp only [insertBy]
    split
    · exact (ih.cons y).trans (List.Perm.swap x y ys)
    · exact List.Perm.refl _

theorem sortBy_perm (le : α → α → Bool) (l : List α) :
    (sortBy le l).Perm l := by
  induction l with
  | nil => simp [sortBy]
  | cons x xs ih => exact (insertBy_perm le x (sortBy le xs)).trans (ih.cons x)

theorem countP_visitForColumn (rows : List SoeRow) (schedule : ScheduleDates)
    (lbl : String) :
    ∀ (cols : List (SoeKey × String)),
    (cols.filterMap (visitForColumn rows schedule)).countP (fun v => v.label == lbl) =
      cols.countP (fun kl => kl.2 == lbl && !(schedGet schedule kl.1 == "")) := by
  intro cols
  induction cols with
  | nil => simp
  | cons kl cols ih =>
    simp only [List.filterMap_cons, visitForColumn]
    by_cases hd : schedGet schedule kl.1 = ""
    · simp [hd, List.countP_cons, ih]
    · simp [hd, List.countP_cons, ih]

theorem columnPlan_label_inj :
    ∀ a ∈ columnPlan, ∀ b ∈ columnPlan, a.2 = b.2 → a.1 = b.1 := by decide

theorem mem_visitsFor (rows : List SoeRow) (schedule : ScheduleDates) (v : Visit) :
    v ∈ visitsFor rows schedule ↔
      ∃ kl ∈ columnPlan, visitForColumn rows schedule kl = some v := by
  unfold visitsFor
  rw [(sortBy_perm _ _).mem_iff]
  exact List.mem_filterMap

-- ---------------------------------------------------------------------------
-- Claim theorems
-- ---------------------------------------------------------------------------

/-- C5: for every list of rows — including rows whose field values contain
embedded commas, double quotes, or newlines — the full CSV renderer wraps
every data field in double quotes doubling any embedded double quote and
emits a header line plus one line per row across all 12 keys in canonical
order, so that splitting its output on commas and newlines while respecting
the quote-escaping re-yields exactly the 12 header names and the original
field values of every row in order. -/
theorem csv_full_roundtrip_C5 (rows : List SoeRow) :
    parseCsv (rowsToCsv rows) =
      some ((SOE_HEADERS.map soeKeyName) ::
        rows.map (fun r => SOE_HEADERS.map (rowGet r))) :=
  parseCsv_rowsToCsv rows

/-- C1 counterexample: with a single all-blank row and a fully populated
schedule, the screening column has only blank cells, yet the aggregator
still emits exactly one Screening visit (with an empty events list), so an
all-blank milestone column does not yield zero Visits. -/
theorem visit_blank_column_counterexample_C1 :
    jsTrim (rowGet blankRow SoeKey.screening) = "" ∧
    (computeScheduleDates 20089).screening ≠ "" ∧
    (visitsFor [blankRow] (computeScheduleDates 20089)).countP
      (fun v => v.label == "Screening") = 1 ∧
    (visitsFor [blankRow] (computeScheduleDates 20089)).length = 9 := by
  decide

/-- C1 (amended): for every row list and schedule, each milestone column of
the plan yields exactly one Visit when its schedule date string is
non-blank — regardless of whether any cell in the column is non-blank, so an
all-blank column yields one Visit with an empty events list — and that Visit
carries the column date and one event per row whose cell is non-blank after
trimming; a milestone whose schedule date is blank yields no Visit. -/
theorem visit_aggregator_amended_C1 (rows : List SoeRow) (schedule : ScheduleDates)
    (k : SoeKey) (lbl : String) (hmem : (k, lbl) ∈ columnPlan) :
    ((visitsFor rows schedule).countP (fun v => v.label == lbl) =
      if schedGet schedule k = "" then 0 else 1) ∧
    (∀ v ∈ visitsFor rows schedule, v.label = lbl →
      v.date = schedGet schedule k ∧
      v.events = eventsForColumn rows k ∧
      v.events.length = (rows.filter (fun r => jsTrim (rowGet r k) ≠ "")).length) := by
  constructor
  · rw [visitsFor, (sortBy_perm _ _).countP_eq, countP_visitForColumn]
    split
    · next hd =>
      fin_cases hmem <;>
        simp_all [columnPlan, List.countP_cons]
    · next hd =>
      fin_cases hmem <;>
        simp_all [columnPlan, List.countP_cons]
  · intro v hv hlbl
    rw [mem_visitsFor] at hv
    obtain ⟨kl, hklmem, hkl⟩ := hv
    unfold visitForColumn at hkl
    by_cases hd : schedGet schedule kl.1 = ""
    · simp [hd] at hkl
    · rw [if_neg hd] at hkl
      obtain rfl : Visit.mk (schedGet schedule kl.1) kl.2 (eventsForColumn rows kl.1) = v :=
        Option.some.inj hkl
      have hk1 : kl.1 = k := columnPlan_label_inj kl hklmem (k, lbl) hmem hlbl
      subst hk1
      refine ⟨rfl, rfl, ?_⟩
      simp [eventsForColumn]

/-- Witness for the amended C1 theorem at a concrete input: the EOT column
of a run with one all-blank row still counts exactly one EOT visit. -/
theorem visit_aggregator_amended_C1_witness :
    (visitsFor [blankRow] (computeScheduleDates 20089)).countP
      (fun v => v.label == "EOT") =
      if schedGet (computeScheduleDates 20089) SoeKey.eot = "" then 0 else 1 :=
  (visit_aggregator_amended_C1 [blankRow] (computeScheduleDates 20089)
    SoeKey.eot "EOT" (by decide)).1

/-- C2: computeScheduleDates satisfies the offset chain — screening is the
anchor plus one day, C1D1 is screening plus 7 days, C1D8 is C1D1 plus 7,
C1D15 is C1D1 plus 14, C2D1 is C1D15 plus 30, C2D8 is C2D1 plus 7, C2D15 is
C2D1 plus 14, C3 and beyond is C2D15 plus 30, and EOT is 30 more — each
rendered as YYYY-MM-DD; at the anchor 2025-01-01 the nine dates are exactly
the ones listed in the specification. -/
theorem schedule_calculator_C2 (T : Int) :
    (computeScheduleDates T).screening = formatIsoDate (addDays T 1) ∧
    (computeScheduleDates T).treatment_period_cycle_1_day_1 =
      formatIsoDate (addDays (screeningDay T) 7) ∧
    (computeScheduleDates T).treatment_period_cycle_1_day_8 =
      formatIsoDate (addDays (c1d1Day T) 7) ∧
    (computeScheduleDates T).treatment_period_cycle_1_day_15 =
      formatIsoDate (addDays (c1d1Day T) 14) ∧
    (computeScheduleDates T).treatment_period_cycle_2_day_1 =
      formatIsoDate (addDays (c1d15Day T) 30) ∧
    (computeScheduleDates T).treatment_period_cycle_2_day_8 =
      formatIsoDate (addDays (c2d1Day T) 7) ∧
    (computeScheduleDates T).treatment_period_cycle_2_day_15 =
      formatIsoDate (addDays (c2d1Day T) 14) ∧
    (computeScheduleDates T).c3_and_beyond =
      formatIsoDate (addDays (c2d15Day T) 30) ∧
    (computeScheduleDates T).eot = formatIsoDate (addDays (c3BeyondDay T) 30) ∧
    computeScheduleDates (daysFromCivil 2025 1 1) =
      { protocol_section := ""
      , screening := "2025-01-02"
      , treatment_period_cycle_1_day_1 := "2025-01-09"
      , treatment_period_cycle_2_day_1 := "2025-02-22"
      , treatment_period_cycle_1_day_8 := "2025-01-16"
      , treatment_period_cycle_2_day_8 := "2025-03-01"
      , treatment_period_cycle_1_day_15 := "2025-01-23"
      , treatment_period_cycle_2_day_15 := "2025-03-08"
      , c3_and_beyond := "2025-04-07"
      , eot := "2025-05-07" } := by
  exact ⟨rfl, rfl, rfl, rfl, rfl, rfl, rfl, rfl, rfl, by decide⟩

/-- C7: the nine milestone day numbers underlying computeScheduleDates are
non-decreasing in the fixed order screening, C1D1, C1D8, C1D15, C2D1, C2D8,
C2D15, C3 and beyond, EOT; the rendered fields of computeScheduleDates are
exactly the ISO renderings of those day numbers. -/
theorem schedule_nondecreasing_C7 (T : Int) :
    (screeningDay T ≤ c1d1Day T ∧ c1d1Day T ≤ c1d8Day T ∧
     c1d8Day T ≤ c1d15Day T ∧ c1d15Day T ≤ c2d1Day T ∧
     c2d1Day T ≤ c2d8Day T ∧ c2d8Day T ≤ c2d15Day T ∧
     c2d15Day T ≤ c3BeyondDay T ∧ c3BeyondDay T ≤ eotDay T) ∧
    (computeScheduleDates T).screening = formatIsoDate (screeningDay T) ∧
    (computeScheduleDates T).treatment_period_cycle_1_day_1 = formatIsoDate (c1d1Day T) ∧
    (computeScheduleDates T).treatment_period_cycle_1_day_8 = formatIsoDate (c1d8Day T) ∧
    (computeScheduleDates T).treatment_period_cycle_1_day_15 = formatIsoDate (c1d15Day T) ∧
    (computeScheduleDates T).treatment_period_cycle_2_day_1 = formatIsoDate (c2d1Day T) ∧
    (computeScheduleDates T).treatment_period_cycle_2_day_8 = formatIsoDate (c2d8Day T) ∧
    (computeScheduleDates T).treatment_period_cycle_2_day_15 = formatIsoDate (c2d15Day T) ∧
    (computeScheduleDates T).c3_and_beyond = formatIsoDate (c3BeyondDay T) ∧
    (computeScheduleDates T).eot = formatIsoDate (eotDay T) := by
  refine ⟨⟨?_, ?_, ?_, ?_, ?_, ?_, ?_, ?_⟩, rfl, rfl, rfl, rfl, rfl, rfl, rfl, rfl, rfl⟩ <;>
    simp [screeningDay, c1d1Day, c1d8Day, c1d15Day, c2d1Day, c2d8Day, c2d15Day,
      c3BeyondDay, eotDay, addDays]

/-- C4 counterexample: the display renderer selects eleven of the twelve
SoeRow keys, not ten as claimed. -/
theorem display_ten_key_counterexample_C4 :
    displayHeaders.length = 11 ∧ ¬ displayHeaders.length = 10 := by decide

/-- C4 (amended): the display renderer selects an 11-key reordered subset of
the 12 SoeRow keys that groups the cycle-1 milestones together and then the
cycle-2 milestones together, excludes the long-horizon follow-up field,
prepends one synthetic dates row whose cells are the schedule outputs
aligned to the same reordered columns, and renders a human label in place of
the raw first key name in the header. -/
theorem display_csv_amended_C4 (rows : List SoeRow) (schedule : ScheduleDates) :
    displayHeaders.length = 11 ∧
    (∀ h ∈ displayHeaders, h ∈ SOE_HEADERS) ∧
    displayHeaders.Nodup ∧
    SoeKey.follow_up_every_12_weeks_up_to_3_years_from_eot ∉ displayHeaders ∧
    displayHeaders =
      [SoeKey.row_label, SoeKey.protocol_section, SoeKey.screening] ++
      [SoeKey.treatment_period_cycle_1_day_1, SoeKey.treatment_period_cycle_1_day_8,
       SoeKey.treatment_period_cycle_1_day_15] ++
      [SoeKey.treatment_period_cycle_2_day_1, SoeKey.treatment_period_cycle_2_day_8,
       SoeKey.treatment_period_cycle_2_day_15] ++
      [SoeKey.c3_and_beyond, SoeKey.eot] ∧
    datesRowCells schedule = "dates" :: (displayHeaders.drop 1).map (schedGet schedule) ∧
    displayHeaderLine = joinSep "," ("Trial Task" :: (displayHeaders.drop 1).map soeKeyName) ∧
    soeKeyName SoeKey.row_label ≠ "Trial Task" ∧
    buildDisplayCsv rows schedule =
      joinSep "\n" (displayHeaderLine :: datesRowLine schedule :: rows.map displayRowLine) := by
  refine ⟨by decide, by decide, by decide, by decide, by decide, ?_, rfl, by decide, rfl⟩
  simp [datesRowCells, displayHeaders, schedGet]

/-- C6: for every model response text and every behaviour of the JSON parse,
the page selector succeeds exactly on the non-empty index list obtainable by
the two-attempt policy — direct parse of the full text first, then, only
when that parse throws, a parse of the first brace span — and errors
whenever neither attempt yields a non-empty pdf_indices list. -/
theorem page_selector_policy_C6 (jp : JsonParseFn) (raw : String) :
    (detectParse jp raw).toOption = pageSelectorObtained jp raw := by
  unfold detectParse pageSelectorObtained
  by_cases hraw : raw.isEmpty
  · simp [hraw, Except.toOption]
  · simp only [hraw, if_false, Bool.false_eq_true]
    cases hjp : jp raw with
    | some r =>
      by_cases hl : r.getD [] = [] <;> simp [hjp, hl, Except.toOption]
    | none =>
      cases hb : firstBraceSpanStr raw with
      | none => simp [hjp, hb, Except.toOption]
      | some sub =>
        cases hjs : jp sub with
        | some r => by_cases hl : r.getD [] = [] <;> simp [hjp, hb, hjs, hl, Except.toOption]
        | none => simp [hjp, hb, hjs, Except.toOption]

/-- Nullish-assignment chain evaluated left to right equals the first
diagnostic recorded, in order. -/
theorem jsNullish_head (a b c d : Option String) :
    jsNullish (jsNullish (jsNullish a b) c) d = ([a, b, c, d].filterMap id).head? := by
  cases a <;> cases b <;> cases c <;> cases d <;> rfl

/-- C9: the shared detectError field of the response always holds the first
diagnostic recorded by the four optional stages in execution order
(detection, reduction, extraction, normalization); later failures are
discarded, so at most one of the four diagnostics appears. -/
theorem first_error_wins_C9 (hasFile : Bool) (f : RunFlags) (o : Oracles) :
    (action hasFile f o).detectError = (stageErrorList hasFile f o).head? := by
  unfold action stageErrorList
  by_cases hg : (hasFile && anyRun f) = true
  · simp only [hg, if_true]
    cases o.apiKey with
    | none => simp [blankResponse]
    | some k =>
      cases hu : o.upload with
      | ok fid =>
        dsimp only
        exact jsNullish_head _ _ _ _
      | error e =>
        dsimp only
        exact jsNullish_head _ _ _ _
  · simp only [hg, if_false, Bool.false_eq_true]
    by_cases hh : hasFile <;> simp [hh, blankResponse]

/-- C10: with a file present but all five stage flags off (the preview flag
may have either value), the action consults no oracle and returns the
success payload with an empty visits array, no error field, and every
optional field absent. -/
theorem no_stage_flags_C10 (b : Bool) (o : Oracles) :
    action true
      { includeSoePdf := b, runUpload := false, runDetect := false
      , runReduce := false, runTsv := false, runJson := false } o =
      { status := 200, visits := [], fileId := none, uploadError := none
      , pdfIndices := none, detectRaw := none, detectError := none, tsv := none
      , tableData := none, csv := none, csv_display := none, soeFileId := none
      , soePdfBase64 := none, soeFileName := none } := rfl

/-- C3 counterexample: when detection has already failed, a subsequent
extraction failure leaves the response carrying the detection message, not
the extraction message, so the failing extraction stage is not the error
recorded in the response. -/
theorem extraction_error_masked_counterexample_C3 :
    (action true exFlagsC3 exOracleC3).tsv = none ∧
    (action true exFlagsC3 exOracleC3).detectError = some "Error: detect boom" ∧
    ¬ (action true exFlagsC3 exOracleC3).detectError = some "Error: TSV extraction failed." := by
  decide

/-- Nullish assignment with no pending value keeps the stored value. -/
theorem jsNullish_none (a : Option String) : jsNullish a none = a := by
  cases a <;> rfl

/-- C3 (amended): for every run in which the extraction stage fails —
whatever the detection and reduction flags and outcomes — normalization does
not run, visits is the empty array, csv and csv_display are absent, the
response still carries success status, and detectError is the nullish chain
of the detection-stage error, the reduction-stage error, and the extraction
error: when neither earlier optional stage recorded an error (notably when
detection ran and succeeded) the extraction message itself is recorded, and
when an earlier stage did record one, that earlier message is retained
(first error wins). -/
theorem extraction_failure_amended_C3 (f : RunFlags) (o : Oracles)
    (k fid e : String)
    (hkey : o.apiKey = some k) (hup : o.upload = Except.ok fid)
    (hfid : fid.isEmpty = false) (htsv : f.runTsv = true)
    (hex : ∀ tid, o.extractTsv tid = Except.error e) :
    (action true f o).status = 200 ∧
    (action true f o).tsv = none ∧
    (action true f o).tableData = none ∧
    (action true f o).csv = none ∧
    (action true f o).csv_display = none ∧
    (action true f o).visits = [] ∧
    (action true f o).detectError =
      jsNullish
        (jsNullish (detectStage f o (some fid)).2.2
          (reduceStage f o (some fid) (detectStage f o (some fid)).1).2.2.2)
        (some e) ∧
    ((detectStage f o (some fid)).2.2 = none →
      (reduceStage f o (some fid) (detectStage f o (some fid)).1).2.2.2 = none →
      (action true f o).detectError = some e) ∧
    (∀ e0, jsNullish (detectStage f o (some fid)).2.2
        (reduceStage f o (some fid) (detectStage f o (some fid)).1).2.2.2 = some e0 →
      (action true f o).detectError = some e0) := by
  have htstage : tsvStage f o
      (reduceStage f o (some fid) (detectStage f o (some fid)).1).1 (some fid) =
      (none, some e) := by
    unfold tsvStage
    rw [htsv]
    cases hsoe : (reduceStage f o (some fid) (detectStage f o (some fid)).1).1 with
    | none => simp [jsOrStr, hfid, hex]
    | some sid =>
      by_cases hs : sid.isEmpty
      · simp [jsOrStr, hs, hfid, hex]
      · simp [jsOrStr, hs, hex]
  have hg : (true && anyRun f) = true := by simp [anyRun, htsv]
  have hmain :
      (action true f o).status = 200 ∧
      (action true f o).tsv = none ∧
      (action true f o).tableData = none ∧
      (action true f o).csv = none ∧
      (action true f o).csv_display = none ∧
      (action true f o).visits = [] ∧
      (action true f o).detectError =
        jsNullish
          (jsNullish (detectStage f o (some fid)).2.2
            (reduceStage f o (some fid) (detectStage f o (some fid)).1).2.2.2)
          (some e) := by
    unfold action
    simp only [hg, if_true, hkey, hup]
    rw [htstage]
    simp [jsonStage, jsNullish_none]
  refine ⟨hmain.1, hmain.2.1, hmain.2.2.1, hmain.2.2.2.1, hmain.2.2.2.2.1,
    hmain.2.2.2.2.2.1, hmain.2.2.2.2.2.2, ?_, ?_⟩
  · intro h1 h2
    rw [hmain.2.2.2.2.2.2, h1, h2]
    rfl
  · intro e0 h0
    rw [hmain.2.2.2.2.2.2, h0]
    rfl

/-- Witness for the amended C3 theorem at a concrete input: with detection
and reduction off and extraction failing, the extraction message itself is
recorded. -/
theorem extraction_failure_amended_C3_witness :
    (action true wFlagsC3 exOracleC3).visits = [] ∧
    (action true wFlagsC3 exOracleC3).detectError = some "Error: TSV extraction failed." := by
  have h := extraction_failure_amended_C3 wFlagsC3 exOracleC3 "k" "file-1"
    "Error: TSV extraction failed." rfl rfl rfl rfl (fun _ => rfl)
  exact ⟨h.2.2.2.2.2.1, h.2.2.2.2.2.2.2.1 rfl rfl⟩

theorem anyRun_flag (b : Bool) (f : RunFlags) :
    anyRun { f with includeSoePdf := b } = anyRun f := rfl

theorem detectStage_flag (b : Bool) (f : RunFlags) (o : Oracles) (x : Option String) :
    detectStage { f with includeSoePdf := b } o x = detectStage f o x := rfl

theorem tsvStage_flag (b : Bool) (f : RunFlags) (o : Oracles) (x y : Option String) :
    tsvStage { f with includeSoePdf := b } o x y = tsvStage f o x y := rfl

theorem jsonStage_flag (b : Bool) (f : RunFlags) (o : Oracles) (x : Option String) :
    jsonStage { f with includeSoePdf := b } o x = jsonStage f o x := rfl

theorem reduceStage_flag_eq (f : RunFlags) (o : Oracles) (fileId : Option String)
    (p : Option (List Int)) (hb : ∀ l, (o.base64 l).isOk = true) :
    (reduceStage { f with includeSoePdf := true } o fileId p).1 =
      (reduceStage { f with includeSoePdf := false } o fileId p).1 ∧
    (reduceStage { f with includeSoePdf := true } o fileId p).2.2.2 =
      (reduceStage { f with includeSoePdf := false } o fileId p).2.2.2 := by
  unfold reduceStage
  cases fileId with
  | none => simp
  | some fid =>
    cases p with
    | none => simp
    | some idxs =>
      by_cases hg : (!fid.isEmpty && f.runReduce && decide (0 < idxs.length)) = true
      · simp only [hg, if_true]
        cases hbs : o.buildSoe idxs with
        | error e => simp
        | ok u =>
          cases hb64 : o.base64 idxs with
          | error e =>
            have := hb idxs
            rw [hb64] at this
            simp [Except.isOk, Except.toBool] at this
          | ok b64 =>
            cases hus : o.uploadSoe idxs with
            | error e => simp
            | ok sid => simp
      · simp only [hg]
        simp

/-- C8: two runs of the action that differ only in the includeSoePdf flag
(identical file presence, other flags, and external-call outcomes, with the
base64 encoding succeeding) produce responses that agree on every field
except soePdfBase64 and soeFileName. -/
theorem include_soe_pdf_noninterference_C8 (hasFile : Bool) (f : RunFlags)
    (o : Oracles) (hb : ∀ l, (o.base64 l).isOk = true) :
    eraseSoePdfFields (action hasFile { f with includeSoePdf := true } o) =
      eraseSoePdfFields (action hasFile { f with includeSoePdf := false } o) := by
  have h := fun fid p => reduceStage_flag_eq f o fid p hb
  unfold action
  simp only [anyRun_flag]
  by_cases hg : (hasFile && anyRun f) = true
  · simp only [hg, if_true]
    cases o.apiKey with
    | none => rfl
    | some k =>
      cases hu : o.upload with
      | ok fid =>
        dsimp only
        rw [detectStage_flag, detectStage_flag]
        rw [(h _ _).1, (h _ _).2, tsvStage_flag, tsvStage_flag,
          jsonStage_flag, jsonStage_flag]
        rfl
      | error e =>
        dsimp only
        rw [detectStage_flag, detectStage_flag]
        rw [(h _ _).1, (h _ _).2, tsvStage_flag, tsvStage_flag,
          jsonStage_flag, jsonStage_flag]
        rfl
  · simp only [hg, if_false, Bool.false_eq_true]

/-- Witness for the non-interference theorem at a concrete input. -/
theorem include_soe_pdf_noninterference_C8_witness :
    eraseSoePdfFields (action true { wFlagsC8 with includeSoePdf := true } wOracleC8) =
      eraseSoePdfFields (action true { wFlagsC8 with includeSoePdf := false } wOracleC8) :=
  include_soe_pdf_noninterference_C8 true wFlagsC8 wOracleC8 (fun _ => rfl)

